import Mathlib

/-!
# Verification of the PTY-MCP session engine

A shallow embedding, in Lean 4, of the core of the `pty-mcp` repository
(`src/pty_mcp/session.py`, `src/pty_mcp/config.py`, `src/pty_mcp/tools.py`),
together with theorems settling the specification claims about it.

Python strings are modelled as `List Char`; Python `deque(maxlen=m)` as a
bounded list; Python attribute access on the `SessionConfig` dataclass as a
total lookup function returning `Option` (so that the `AttributeError`
behaviour of the source, which reads attributes the dataclass does not
declare, is representable); fallible operations return `Except PyErr`.
-/

/-- Python strings are modelled as lists of characters. -/
abbrev PyStr := List Char

/-- Python whitespace predicate (`str.isspace` per character), covering the
ASCII whitespace characters and the Unicode space characters Python treats
as whitespace.  Used to embed `str.strip()`. -/
def isPySpace (c : Char) : Bool :=
  c == ' ' || c == '\t' || c == '\n' || c == '\r' ||
  c.toNat == 0x0b || c.toNat == 0x0c ||
  (0x1c ≤ c.toNat && c.toNat ≤ 0x1f) ||
  c.toNat == 0x85 || c.toNat == 0xa0 ||
  c.toNat == 0x1680 || (0x2000 ≤ c.toNat && c.toNat ≤ 0x200a) ||
  c.toNat == 0x2028 || c.toNat == 0x2029 || c.toNat == 0x202f ||
  c.toNat == 0x205f || c.toNat == 0x3000

/-- Embedding of Python `s.strip()`: drop whitespace from both ends. -/
def pyStrip (s : PyStr) : PyStr :=
  ((s.dropWhile isPySpace).reverse.dropWhile isPySpace).reverse

/-- Embedding of Python `s.endswith(suf)`. -/
def pyEndsWith (s suf : PyStr) : Bool :=
  List.isSuffixOf suf s

/-- Embedding of Python substring containment `needle in hay`. -/
def pyIn (needle : PyStr) : PyStr → Bool
  | [] => needle.isEmpty
  | c :: rest => needle.isPrefixOf (c :: rest) || pyIn needle rest

/-- Embedding of Python `"\n".join(lines)`. -/
def joinNL (lines : List PyStr) : PyStr :=
  List.intercalate ['\n'] lines

/- ------------------------------------------------------------------ -/
/- Sanitizer: `strip_ansi_codes` (session.py lines 19-48)             -/
/- ------------------------------------------------------------------ -/

/-- Character class `[0-9;]` of the CSI alternative of
`ANSI_ESCAPE_PATTERN` (session.py line 22). -/
def isCsiParam (c : Char) : Bool :=
  ('0' ≤ c && c ≤ '9') || c == ';'

/-- Character class `[A-Za-z]`, the CSI final byte. -/
def isAsciiLetter (c : Char) : Bool :=
  ('A' ≤ c && c ≤ 'Z') || ('a' ≤ c && c ≤ 'z')

/-- Character class `[0-9A-Za-z]` of the charset-designator alternatives. -/
def isAlnumAscii (c : Char) : Bool :=
  ('0' ≤ c && c ≤ '9') || isAsciiLetter c

/-- Attempt to match, at the position just after an ESC (0x1B) character,
one of the alternatives of `ANSI_ESCAPE_PATTERN` (session.py lines 19-29),
in the order the Python regex engine tries them:

1. `\[[0-9;]*[A-Za-z]` — CSI: `[`, a maximal run of `[0-9;]`, one letter
   (the parameter and final classes are disjoint, so greedy matching with
   backtracking degenerates to: maximal run, then the next char must be a
   letter);
2. `\][^\x07]*\x07` — OSC terminated by BEL: succeeds iff a BEL occurs in
   the rest of the input, consuming through the first BEL;
3. `\][^\x1b]*\x1b\\` — OSC terminated by ESC-backslash: since `[^\x1b]*`
   cannot cross an ESC, this succeeds iff the first subsequent ESC is
   immediately followed by a backslash;
4. `\([0-9A-Za-z]` and 5. `\)[0-9A-Za-z]` — charset designators;
6. `[=>]` — keypad modes.

Returns the number of characters consumed after the ESC, or `none` when no
alternative matches (the regex then does not match at this ESC at all). -/
def tryAnsiMatch : PyStr → Option Nat
  | [] => none
  | c :: rest =>
    if c = '[' then
      let run := rest.takeWhile isCsiParam
      match rest.drop run.length with
      | d :: _ => if isAsciiLetter d then some (1 + run.length + 1) else none
      | [] => none
    else if c = ']' then
      match rest.findIdx? (fun d => d = '\x07') with
      | some j => some (1 + j + 1)
      | none =>
        match rest.findIdx? (fun d => d = '\x1b') with
        | some j =>
          match (rest.drop (j + 1)).head? with
          | some d => if d = '\\' then some (1 + j + 2) else none
          | none => none
        | none => none
    else if c = '(' || c = ')' then
      match rest.head? with
      | some d => if isAlnumAscii d then some 2 else none
      | none => none
    else if c = '=' || c = '>' then
      some 1
    else
      none

/-- One left-to-right pass of `ANSI_ESCAPE_PATTERN.sub('', text)`:
at each position, if the character is ESC and an alternative matches there,
delete the match and continue after it (leftmost, non-overlapping);
otherwise keep the character.  Structured with explicit fuel (one unit per
examined character) so that the function is structurally recursive; every
step consumes at least one input character, so `fuel = length` suffices. -/
def ansiSubFuel : Nat → PyStr → PyStr
  | 0, l => l
  | _ + 1, [] => []
  | fuel + 1, c :: rest =>
    if c = '\x1b' then
      match tryAnsiMatch rest with
      | some n => ansiSubFuel fuel (rest.drop n)
      | none => c :: ansiSubFuel fuel rest
    else
      c :: ansiSubFuel fuel rest

/-- `ANSI_ESCAPE_PATTERN.sub('', text)` (session.py line 43). -/
def ansiSub (l : PyStr) : PyStr :=
  ansiSubFuel l.length l

/-- The control-character class `[\x00-\x08\x0b-\x0c\x0e-\x1f\x7f]` of the
second substitution (session.py line 46).  Note that `\x0d` (carriage
return) is NOT in the class: the source keeps `\r`. -/
def isBannedCtrl (c : Char) : Bool :=
  c.toNat ≤ 0x08 || c.toNat == 0x0b || c.toNat == 0x0c ||
  (0x0e ≤ c.toNat && c.toNat ≤ 0x1f) || c.toNat == 0x7f

/-- `strip_ansi_codes` (session.py lines 32-48): remove ANSI escape
sequences, then delete the remaining control characters other than
`\n`, `\r`, `\t`. -/
def strip_ansi_codes (text : PyStr) : PyStr :=
  (ansiSub text).filter (fun c => !(isBannedCtrl c))

/- ------------------------------------------------------------------ -/
/- Sentinel command protocol: `PTYSession.run_command` (lines 135-204) -/
/- ------------------------------------------------------------------ -/

/-- The per-line test of the sentinel scan in `run_command`
(session.py lines 169-175): the line matches when it contains the sentinel
and is not the echo of the sentinel command (its stripped form neither
equals nor ends with the stripped sentinel command; such lines are
skipped by `continue`). -/
def sentinelLineMatch (sentinel sentinelCmd line : PyStr) : Bool :=
  if pyIn sentinel line then
    let stripped := pyStrip line
    if stripped == pyStrip sentinelCmd ||
        pyEndsWith stripped (pyStrip sentinelCmd) then
      false
    else
      true
  else
    false

/-- `PTYSession._filter_command_echo` (session.py lines 188-204): keep a
line unless its stripped form equals the stripped command, equals the
stripped sentinel command, ends with the stripped command, or ends with
the stripped sentinel command. -/
def filter_command_echo (command sentinelCmd : PyStr)
    (lines : List PyStr) : List PyStr :=
  lines.filter fun line =>
    let stripped := pyStrip line
    !(stripped == pyStrip command || stripped == pyStrip sentinelCmd ||
      pyEndsWith stripped (pyStrip command) ||
      pyEndsWith stripped (pyStrip sentinelCmd))

/-- One poll of the `run_command` loop body (session.py lines 164-183)
applied to `new_lines = buffer[start_buffer_len:]`: scan for the first
matching sentinel line; on a match at index `i`, the result is
`("\n".join(_filter_command_echo(new_lines[:i])), True)`. -/
def pollScan (sentinel command sentinelCmd : PyStr)
    (newLines : List PyStr) : Option (PyStr × Bool) :=
  match newLines.findIdx? (sentinelLineMatch sentinel sentinelCmd) with
  | some i =>
    some (joinNL (filter_command_echo command sentinelCmd (newLines.take i)),
      true)
  | none => none

/-- The polling loop of `run_command` (session.py lines 158-186), with time
abstracted into the sequence of buffer snapshots the loop observes: each
element of `snapshots` is `list(self.buffer)` at one poll that happens
before the deadline, and exhaustion of `snapshots` is the iteration at
which `elapsed > timeout` first holds.  `acc` is the running value of the
`output_lines` variable (it is overwritten with `new_lines` at the end of
every poll and is what a timeout returns). -/
def runCommandAux (sentinel command sentinelCmd : PyStr) (base : Nat)
    (acc : List PyStr) : List (List PyStr) → PyStr × Bool
  | [] => (joinNL acc, false)
  | buf :: rest =>
    let newLines := buf.drop base
    match pollScan sentinel command sentinelCmd newLines with
    | some r => r
    | none => runCommandAux sentinel command sentinelCmd base newLines rest

/-- `PTYSession.run_command` (session.py lines 135-186) as a function of
the snapshot `base = len(self.buffer)` taken at call time and of the
buffer snapshots observed by its polls. -/
def run_command (sentinel command sentinelCmd : PyStr) (base : Nat)
    (snapshots : List (List PyStr)) : PyStr × Bool :=
  runCommandAux sentinel command sentinelCmd base [] snapshots

/-- Rendering of a `run_command` result by the tool surface
(`_run_command`, tools.py lines 202-212): on completion the plain output,
on timeout the f-string
`"[TIMEOUT: Command did not complete within {timeout}s]\n{output}"`.
The formatting of the float `timeout` is abstracted as the character
string `timeoutStr`. -/
def renderRunCommandResult (timeoutStr : PyStr) (res : PyStr × Bool) :
    PyStr :=
  if res.2 then
    res.1
  else
    ("[TIMEOUT: Command did not complete within ".data ++ timeoutStr ++
      "s]\n".data) ++ res.1

/-- The first line of a text (everything before the first newline). -/
def firstLine (s : PyStr) : PyStr :=
  s.takeWhile (fun c => c ≠ '\n')

/- ------------------------------------------------------------------ -/
/- Line buffer: `deque(maxlen=buffer_size)` (session.py lines 68-69)  -/
/- ------------------------------------------------------------------ -/

/-- `deque.append` on a deque created with `maxlen=m`: when the deque is
full the oldest element is evicted, so the length never exceeds `m`. -/
def dequeAppend (m : Nat) (q : List PyStr) (x : PyStr) : List PyStr :=
  let grown := q ++ [x]
  if m < grown.length then grown.drop (grown.length - m) else grown

/-- A sequence of `deque.append` calls (the reader task appending the
lines of one read chunk, session.py lines 110-114). -/
def applyAppends (m : Nat) (q : List PyStr) (xs : List PyStr) : List PyStr :=
  xs.foldl (dequeAppend m) q

/-- The buffer snapshots seen by successive polls when, between polls, the
reader appends the given batches of lines to the deque. -/
def bufferStates (m : Nat) (q : List PyStr) :
    List (List PyStr) → List (List PyStr)
  | [] => []
  | b :: bs =>
    let q1 := applyAppends m q b
    q1 :: bufferStates m q1 bs

/-- `PTYSession.get_buffer` (session.py lines 217-222).  The slice
`buffer_list[-lines:]` is embedded with Python slice semantics for a
single (possibly negative) start index. -/
def pySliceFrom (i : Int) (l : List PyStr) : List PyStr :=
  let n : Int := l.length
  let eff : Int := if i < 0 then max 0 (n + i) else min i n
  l.drop eff.toNat

/-- `PTYSession.get_buffer(lines)`: `None` returns the whole buffer
joined by newlines, otherwise the slice `buffer_list[-lines:]` joined. -/
def get_buffer (buffer : List PyStr) (lines : Option Int) : PyStr :=
  match lines with
  | none => joinNL buffer
  | some n => joinNL (pySliceFrom (-n) buffer)

/- ------------------------------------------------------------------ -/
/- Configuration and Python attribute access (config.py lines 7-16)   -/
/- ------------------------------------------------------------------ -/

/-- The `SessionConfig` dataclass exactly as declared in config.py
lines 7-16: its fields are `shell`, `shell_args`, `cwd`,
`timeout_seconds`, `buffer_size`, `sentinel_command`.  (It declares no
`command`, `args`, `timeout_session` or `idle_timeout` field.) -/
structure SessionConfig where
  shell : String
  shell_args : List String
  cwd : String
  timeout_seconds : Nat
  buffer_size : Nat
  sentinel_command : String
deriving DecidableEq

/-- The default `SessionConfig()` with `SHELL` unset in the environment. -/
def SessionConfig.default : SessionConfig :=
  { shell := "/bin/bash", shell_args := [], cwd := "/",
    timeout_seconds := 1800, buffer_size := 1000,
    sentinel_command := "echo {sentinel}" }

/-- A value stored in a `SessionConfig` attribute. -/
inductive AttrVal where
  | s (v : String)
  | n (v : Nat)
  | sl (v : List String)
deriving DecidableEq

/-- Python attribute access `getattr(config, name)` on a `SessionConfig`
instance: defined for exactly the six declared fields, `none` (Python
`AttributeError`) for every other name. -/
def configGetAttr (c : SessionConfig) (attrName : String) : Option AttrVal :=
  if attrName = "shell" then some (.s c.shell)
  else if attrName = "shell_args" then some (.sl c.shell_args)
  else if attrName = "cwd" then some (.s c.cwd)
  else if attrName = "timeout_seconds" then some (.n c.timeout_seconds)
  else if attrName = "buffer_size" then some (.n c.buffer_size)
  else if attrName = "sentinel_command" then some (.s c.sentinel_command)
  else none

/-- Errors raised by the embedded Python code. -/
inductive PyErr where
  | attributeError (attr : String)
  | runtimeError (msg : String)
deriving DecidableEq

/- ------------------------------------------------------------------ -/
/- `PTYSession.start`, child branch (session.py lines 75-80)          -/
/- ------------------------------------------------------------------ -/

/-- The child branch of `PTYSession.start`: after `pty.fork`, the child
runs `os.chdir(self.config.cwd)` and then builds
`argv = [self.config.command] + self.config.args` before `os.execvp`.
Both `command` and `args` are read with Python attribute access on the
config; the function returns the argv the child would exec, or the
`AttributeError` the attribute reads raise. -/
def startChildArgv (c : SessionConfig) : Except PyErr (List String) :=
  match configGetAttr c "command" with
  | some (.s cmd) =>
    match configGetAttr c "args" with
    | some (.sl args) => .ok (cmd :: args)
    | _ => .error (.attributeError "args")
  | _ => .error (.attributeError "command")

/- ------------------------------------------------------------------ -/
/- Session registry: `SessionManager` (session.py lines 270-330)      -/
/- ------------------------------------------------------------------ -/

/-- Registry state: the `max_sessions` bound and the keys of the
`self.sessions` dict, in insertion order. -/
structure SessionManagerState where
  maxSessions : Nat
  sessions : List String
deriving DecidableEq

/-- Python dict assignment `self.sessions[session_id] = session` on the
key set: a fresh key is appended, an existing key is overwritten in
place (the key set is unchanged). -/
def dictInsert (ids : List String) (sid : String) : List String :=
  if sid ∈ ids then ids else ids ++ [sid]

/-- `SessionManager.create_session` (session.py lines 318-330), as a
function of the generated session id and of the outcome of
`session.start()` (which the source awaits before inserting): raise
`RuntimeError` when `len(self.sessions) >= self.max_sessions`, propagate
a failure of `start()`, otherwise insert the new id and return it.
Returns the (possibly unchanged) registry state together with the
result. -/
def create_session (st : SessionManagerState) (newId : String)
    (startRes : Except PyErr Unit) :
    SessionManagerState × Except PyErr String :=
  if st.maxSessions ≤ st.sessions.length then
    (st, .error (.runtimeError
      ("Maximum sessions (" ++ toString st.maxSessions ++ ") reached")))
  else
    match startRes with
    | .error e => (st, .error e)
    | .ok _ => ({ st with sessions := dictInsert st.sessions newId }, .ok newId)

/- ------------------------------------------------------------------ -/
/- Reaper: `SessionManager._cleanup_loop` (session.py lines 300-316)  -/
/- ------------------------------------------------------------------ -/

/-- What one reaper iteration observes about a session: its config, its
inactivity `(now - session.last_activity).total_seconds()`, and whether
`session.is_alive()` holds. -/
structure SessionView where
  config : SessionConfig
  idleSeconds : Int
  alive : Bool
deriving DecidableEq

/-- The body of one tick of `SessionManager._cleanup_loop` (session.py
lines 304-316): for each session, compare the inactivity with
`session.config.timeout_session` (a Python attribute access) and drop the
session when it is idle too long or dead; an uncaught exception aborts
the tick (and kills the cleanup task), leaving the registry as it was.
Returns the surviving sessions, or the error that aborted the tick. -/
def cleanupTick :
    List (String × SessionView) → Except PyErr (List (String × SessionView))
  | [] => .ok []
  | (sid, s) :: rest =>
    match configGetAttr s.config "timeout_session" with
    | some (.n t) =>
      if (t : Int) < s.idleSeconds then cleanupTick rest
      else if s.alive = false then cleanupTick rest
      else (cleanupTick rest).map (fun r => (sid, s) :: r)
    | _ => .error (.attributeError "timeout_session")

/- ------------------------------------------------------------------ -/
/- Claim-side definitions (transcribed from the claim texts, for       -/
/- refinement-style comparison with the code-side definitions)         -/
/- ------------------------------------------------------------------ -/

/-- Claim C1's completion-marker test, in the claim's own words: a line
"that contains the sentinel S and whose stripped form is neither equal to
nor ends with the stripped sentinel_cmd". -/
def claimMarker (sentinel sentinelCmd line : PyStr) : Bool :=
  pyIn sentinel line &&
  !(pyStrip line == pyStrip sentinelCmd) &&
  !(pyEndsWith (pyStrip line) (pyStrip sentinelCmd))

/-- Claim C1's echo-dropping test, in the claim's own words: drop a line
"whose stripped form equals cmd stripped, equals sentinel_cmd stripped,
ends with cmd stripped, or ends with sentinel_cmd stripped". -/
def claimEchoDrop (command sentinelCmd line : PyStr) : Bool :=
  pyStrip line == pyStrip command ||
  pyStrip line == pyStrip sentinelCmd ||
  pyEndsWith (pyStrip line) (pyStrip command) ||
  pyEndsWith (pyStrip line) (pyStrip sentinelCmd)

/- ================================================================== -/
/- Helper lemmas                                                      -/
/- ================================================================== -/

/-- If a list has no ESC character, the ANSI-substitution pass keeps it
unchanged (the pattern can only match at an ESC). -/
theorem ansiSubFuel_of_no_esc :
    ∀ (fuel : Nat) (l : PyStr), (∀ c ∈ l, c ≠ '\x1b') →
      ansiSubFuel fuel l = l := by
  intro fuel
  induction fuel with
  | zero => intro l _; rfl
  | succ n ih =>
    intro l hl
    cases l with
    | nil => rfl
    | cons c rest =>
      have hc : c ≠ '\x1b' := hl c (List.mem_cons_self c rest)
      simp only [ansiSubFuel, if_neg hc]
      exact congrArg (c :: ·) (ih rest (fun d hd => hl d (List.mem_cons_of_mem c hd)))

/-- If a string has no ESC character, `ANSI_ESCAPE_PATTERN.sub` keeps it
unchanged. -/
theorem ansiSub_of_no_esc (l : PyStr) (h : ∀ c ∈ l, c ≠ '\x1b') :
    ansiSub l = l :=
  ansiSubFuel_of_no_esc l.length l h

/-- ESC (0x1B) is in the control-character class of the second
substitution of `strip_ansi_codes`. -/
theorem isBannedCtrl_esc : isBannedCtrl '\x1b' = true := by decide

/- ================================================================== -/
/- Claim C8: idempotence of the sanitizer                             -/
/- ================================================================== -/

/-- C8 (confirmed): the sanitizer is idempotent: for every input string
`x`, `strip_ansi_codes(strip_ansi_codes(x)) == strip_ansi_codes(x)`.
After one pass, the output contains no character of the control class —
in particular no ESC, since 0x1B lies in the deleted range 0x0E-0x1F —
so neither substitution changes it again. -/
theorem strip_ansi_codes_idempotent (x : PyStr) :
    strip_ansi_codes (strip_ansi_codes x) = strip_ansi_codes x := by
  unfold strip_ansi_codes
  have hmem : ∀ c ∈ (ansiSub x).filter (fun c => !(isBannedCtrl c)),
      c ≠ '\x1b' := by
    intro c hc hEq
    have hp := (List.mem_filter.mp hc).2
    rw [hEq, isBannedCtrl_esc] at hp
    exact absurd hp (by decide)
  rw [ansiSub_of_no_esc _ hmem]
  exact List.filter_eq_self.mpr (fun a ha => (List.mem_filter.mp ha).2)

/- ================================================================== -/
/- Claim C2: carriage-return overwrite collapsing                     -/
/- ================================================================== -/

/-- C2 (code bug): the source's sanitizer does NOT collapse
carriage-return overwrites: its control-character class
`[\x00-\x08\x0b-\x0c\x0e-\x1f\x7f]` deliberately excludes `\x0d`, no
other code path touches `\r`, and so the progress-bar input of the claim
(and of the repository's own tests, e.g.
`test_strip_ansi_codes_progress_bar`) passes through unchanged: the
output still contains `\r` and is not `"Downloading: 100%"`. -/
theorem strip_ansi_codes_keeps_cr_overwrites :
    strip_ansi_codes
        "Downloading: 10%\rDownloading: 50%\rDownloading: 100%".data
      = "Downloading: 10%\rDownloading: 50%\rDownloading: 100%".data ∧
    '\r' ∈ strip_ansi_codes
        "Downloading: 10%\rDownloading: 50%\rDownloading: 100%".data ∧
    strip_ansi_codes
        "Downloading: 10%\rDownloading: 50%\rDownloading: 100%".data
      ≠ "Downloading: 100%".data := by
  refine ⟨by decide, by decide, by decide⟩

/- ================================================================== -/
/- Claim C3: `start()` and the config field names                     -/
/- ================================================================== -/

/-- C3 (code bug): `start()` cannot launch the child from
`config.command` with `config.args`, because the `SessionConfig`
dataclass declares `shell`/`shell_args`, not `command`/`args`: for every
config value, the child branch of `start()` raises `AttributeError` on
`self.config.command` before reaching `os.execvp`, so no exec happens
and no `SpawnError` is ever produced (the source defines no such
exception). -/
theorem startChildArgv_attribute_error (c : SessionConfig) :
    startChildArgv c = .error (.attributeError "command") := rfl

/- ================================================================== -/
/- Claim C5: the reaper tick                                          -/
/- ================================================================== -/

/-- C5 (code bug): one tick of the reaper never removes anything: on any
non-empty registry the loop body's very first comparison reads
`session.config.timeout_session`, an attribute `SessionConfig` does not
declare (its field is `timeout_seconds`), so the tick aborts with
`AttributeError` — before any `del` — no matter how idle the sessions
are; the cleanup task dies and idle sessions are never reaped. -/
theorem cleanupTick_attribute_error (sid : String) (s : SessionView)
    (rest : List (String × SessionView)) :
    cleanupTick ((sid, s) :: rest) = .error (.attributeError "timeout_session")
      := rfl

/- ================================================================== -/
/- Claim C10: `get_buffer` and the `lines = 0` slice                  -/
/- ================================================================== -/

/-- C10 (confirmed): `get_buffer` with `lines = 0` returns the whole
buffer joined by newlines (the Python slice `buffer_list[-0:]` is
`buffer_list[0:]`, the whole list), and for every `n > 0` it returns the
last `min(n, len(buffer))` lines. -/
theorem get_buffer_zero_and_last_n (buffer : List PyStr) (n : Int) :
    get_buffer buffer (some 0) = joinNL buffer ∧
    (0 < n →
      get_buffer buffer (some n)
          = joinNL (buffer.drop (buffer.length - n.toNat)) ∧
      (buffer.drop (buffer.length - n.toNat)).length
          = min n.toNat buffer.length) := by
  constructor
  · simp [get_buffer, pySliceFrom]
  · intro hn
    have hneg : (-n : Int) < 0 := by omega
    have heff : (max 0 ((buffer.length : Int) + -n)).toNat
        = buffer.length - n.toNat := by omega
    constructor
    · simp only [get_buffer, pySliceFrom, if_pos hneg, heff]
    · rw [List.length_drop]
      omega

/-- Witness for C10 at a concrete buffer of three lines and `n = 2`. -/
theorem get_buffer_zero_and_last_n_witness :
    get_buffer ["a".data, "b".data, "c".data] (some 0) = "a\nb\nc".data ∧
    get_buffer ["a".data, "b".data, "c".data] (some 2) = "b\nc".data := by
  constructor
  · exact (get_buffer_zero_and_last_n ["a".data, "b".data, "c".data] 2).1.trans
      (by decide)
  · exact (((get_buffer_zero_and_last_n ["a".data, "b".data, "c".data] 2).2
      (by decide)).1).trans (by decide)

/- ================================================================== -/
/- Claim C7: registry capacity                                        -/
/- ================================================================== -/

/-- C7 (confirmed): `create_session` at capacity (`size == max_sessions`)
fails with `RuntimeError("Maximum sessions (<N>) reached")` and leaves
the registry unchanged; the registry size never exceeds `max_sessions`;
and every successful call inserts exactly the one freshly generated id. -/
theorem create_session_capacity (st : SessionManagerState) (newId : String)
    (startRes : Except PyErr Unit) :
    (st.sessions.length = st.maxSessions →
      create_session st newId startRes
        = (st, .error (.runtimeError
            ("Maximum sessions (" ++ toString st.maxSessions ++ ") reached")))) ∧
    (st.sessions.length ≤ st.maxSessions →
      (create_session st newId startRes).1.sessions.length ≤ st.maxSessions) ∧
    (newId ∉ st.sessions →
      ∀ sid, (create_session st newId startRes).2 = .ok sid →
        sid = newId ∧
        (create_session st newId startRes).1.sessions
            = st.sessions ++ [newId] ∧
        (create_session st newId startRes).1.sessions.length
            = st.sessions.length + 1) := by
  refine ⟨?_, ?_, ?_⟩
  · intro hfull
    unfold create_session
    rw [if_pos (le_of_eq hfull.symm)]
  · intro hle
    unfold create_session
    by_cases hcap : st.maxSessions ≤ st.sessions.length
    · rw [if_pos hcap]; exact hle
    · rw [if_neg hcap]
      cases startRes with
      | error e => exact hle
      | ok _ =>
        simp only [dictInsert]
        by_cases hmem : newId ∈ st.sessions
        · rw [if_pos hmem]; exact hle
        · rw [if_neg hmem]
          simp only [List.length_append, List.length_singleton]
          omega
  · intro hfresh sid hok
    unfold create_session at hok ⊢
    by_cases hcap : st.maxSessions ≤ st.sessions.length
    · rw [if_pos hcap] at hok
      exact absurd hok (by simp)
    · rw [if_neg hcap] at hok ⊢
      cases startRes with
      | error e => exact absurd hok (by simp)
      | ok _ =>
        simp only at hok
        refine ⟨by injection hok with h; exact h.symm, ?_, ?_⟩
        · simp [dictInsert, if_neg hfresh]
        · simp [dictInsert, if_neg hfresh]

/-- Witness for C7: a registry of 2 at capacity 2 rejects a third session
with the exact message and stays unchanged; a registry of 1 at capacity 2
accepts and appends the fresh id. -/
theorem create_session_capacity_witness :
    create_session ⟨2, ["a", "b"]⟩ "c" (.ok ())
        = (⟨2, ["a", "b"]⟩,
            .error (.runtimeError "Maximum sessions (2) reached")) ∧
    (create_session ⟨2, ["a"]⟩ "b" (.ok ())).1.sessions = ["a", "b"] := by
  constructor
  · exact (create_session_capacity ⟨2, ["a", "b"]⟩ "c" (.ok ())).1 rfl
  · exact (((create_session_capacity ⟨2, ["a"]⟩ "b" (.ok ())).2.2
      (by decide) "b" rfl).2.1).trans rfl

/- ================================================================== -/
/- Claim C1: sentinel detection and echo filtering                    -/
/- ================================================================== -/

/-- The code's per-line sentinel test (`if sentinel in line` followed by
the `continue` guard) coincides with the claim's description of the
completion marker. -/
theorem sentinelLineMatch_eq_claimMarker (sentinel sentinelCmd line : PyStr) :
    sentinelLineMatch sentinel sentinelCmd line
      = claimMarker sentinel sentinelCmd line := by
  simp only [sentinelLineMatch, claimMarker]
  cases hIn : pyIn sentinel line <;>
    cases hEq : pyStrip line == pyStrip sentinelCmd <;>
      cases hEnd : pyEndsWith (pyStrip line) (pyStrip sentinelCmd) <;>
        simp [hIn, hEq, hEnd]

/-- The code's `_filter_command_echo` coincides with the claim's
echo-dropping description. -/
theorem filter_command_echo_eq_claim (command sentinelCmd : PyStr)
    (lines : List PyStr) :
    filter_command_echo command sentinelCmd lines
      = lines.filter (fun line => !(claimEchoDrop command sentinelCmd line)) := by
  simp only [filter_command_echo, claimEchoDrop]

/-- If a poll's `new_lines` contain no completion marker, that poll of
the `run_command` loop makes no decision. -/
theorem pollScan_none (sentinel command sentinelCmd : PyStr)
    (newLines : List PyStr)
    (h : newLines.findIdx? (claimMarker sentinel sentinelCmd) = none) :
    pollScan sentinel command sentinelCmd newLines = none := by
  unfold pollScan
  rw [funext (sentinelLineMatch_eq_claimMarker sentinel sentinelCmd), h]

/-- C1 (confirmed): in every `run_command` call that finds a sentinel —
after zero or more polls whose new lines (relative to the snapshot
`base = len(buffer)`) hold no completion marker, a poll sees new lines
whose first completion marker (first line containing the sentinel whose
stripped form neither equals nor ends with the stripped sentinel command)
is at index `i` — the call returns the earlier new lines joined by a
newline after dropping every echo line (stripped form equal to, or ending
with, the stripped command or the stripped sentinel command), paired with
`true`. -/
theorem run_command_sentinel_completion (sentinel command sentinelCmd : PyStr)
    (base : Nat) (earlier : List (List PyStr)) (buf : List PyStr) (i : Nat)
    (hEarlier : ∀ b ∈ earlier,
      (b.drop base).findIdx? (claimMarker sentinel sentinelCmd) = none)
    (hFound : (buf.drop base).findIdx? (claimMarker sentinel sentinelCmd)
      = some i) :
    run_command sentinel command sentinelCmd base (earlier ++ [buf])
      = (joinNL (((buf.drop base).take i).filter
          (fun line => !(claimEchoDrop command sentinelCmd line))), true) := by
  unfold run_command
  suffices h : ∀ (acc : List PyStr),
      runCommandAux sentinel command sentinelCmd base acc (earlier ++ [buf])
        = (joinNL (((buf.drop base).take i).filter
            (fun line => !(claimEchoDrop command sentinelCmd line))), true) by
    exact h []
  induction earlier with
  | nil =>
    intro acc
    simp only [List.nil_append, runCommandAux, pollScan,
      funext (sentinelLineMatch_eq_claimMarker sentinel sentinelCmd), hFound,
      filter_command_echo_eq_claim]
  | cons b rest ih =>
    intro acc
    have hb : (b.drop base).findIdx? (claimMarker sentinel sentinelCmd)
        = none := hEarlier b (List.mem_cons_self b rest)
    simp only [List.cons_append, runCommandAux,
      pollScan_none sentinel command sentinelCmd _ hb]
    exact ih (fun b' hb' => hEarlier b' (List.mem_cons_of_mem b hb')) _

/-- Witness for C1: a shell echoes the command, prints its output, echoes
the sentinel command, then prints the sentinel; the marker is the fourth
line (index 3), the echoes are dropped, and only the genuine output
`"hi"` is returned with `completed = true`. -/
theorem run_command_sentinel_completion_witness :
    run_command "__PTY_DONE_ab__".data "echo hi".data
        "echo __PTY_DONE_ab__".data 0
        [["echo hi".data, "hi".data, "echo __PTY_DONE_ab__".data,
          "__PTY_DONE_ab__".data]]
      = ("hi".data, true) := by
  have h := run_command_sentinel_completion "__PTY_DONE_ab__".data
    "echo hi".data "echo __PTY_DONE_ab__".data 0 []
    ["echo hi".data, "hi".data, "echo __PTY_DONE_ab__".data,
      "__PTY_DONE_ab__".data] 3
    (by intro b hb; exact absurd hb (List.not_mem_nil b))
    (by decide)
  exact h.trans (by decide)

/- ================================================================== -/
/- Claim C4: timeout behaviour and its rendering                      -/
/- ================================================================== -/

/-- A poll whose `new_lines` contain no matching sentinel line makes no
decision (code-side predicate form). -/
theorem pollScan_none_of_findIdx (sentinel command sentinelCmd : PyStr)
    (newLines : List PyStr)
    (h : newLines.findIdx? (sentinelLineMatch sentinel sentinelCmd) = none) :
    pollScan sentinel command sentinelCmd newLines = none := by
  unfold pollScan
  rw [h]

/-- When every poll misses, the loop runs to the deadline and returns the
`output_lines` of the last completed poll with `completed = False`. -/
theorem runCommandAux_timeout (sentinel command sentinelCmd : PyStr)
    (base : Nat) :
    ∀ (snaps : List (List PyStr)) (acc : List PyStr),
      (∀ b ∈ snaps,
        (b.drop base).findIdx? (sentinelLineMatch sentinel sentinelCmd)
          = none) →
      runCommandAux sentinel command sentinelCmd base acc snaps
        = (joinNL (match snaps.getLast? with
            | some b => b.drop base
            | none => acc), false) := by
  intro snaps
  induction snaps with
  | nil => intro acc _; rfl
  | cons b rest ih =>
    intro acc hnone
    have hb := hnone b (List.mem_cons_self b rest)
    simp only [runCommandAux,
      pollScan_none_of_findIdx sentinel command sentinelCmd _ hb]
    rw [ih (b.drop base) (fun b' hb' => hnone b' (List.mem_cons_of_mem b hb'))]
    cases rest with
    | nil => rfl
    | cons r rs => rfl

/-- The first line of `p ++ "\n" ++ s` is `p` when `p` has no newline. -/
theorem firstLine_append_newline (p s : PyStr) (hp : '\n' ∉ p) :
    firstLine (p ++ '\n' :: s) = p := by
  induction p with
  | nil => simp [firstLine]
  | cons c p' ih =>
    have hc : c ≠ '\n' := fun h => hp (h ▸ List.mem_cons_self c p')
    have hp' : '\n' ∉ p' := fun h => hp (List.mem_cons_of_mem c h)
    have ih' := ih hp'
    simp only [firstLine, decide_not] at ih'
    simp [firstLine, List.takeWhile_cons, hc, ih']

/-- C4 (confirmed): a `run_command` call in which no matching sentinel
line appears at any poll before the deadline returns the lines appended
since the snapshot, joined by newlines, with `completed = False` and no
error; and the tool surface renders that result as text whose first line
is `[TIMEOUT: Command did not complete within <t>s]`, followed by the
partial output. -/
theorem run_command_timeout_renders_marker
    (sentinel command sentinelCmd : PyStr) (base : Nat)
    (snapshots : List (List PyStr)) (timeoutStr : PyStr)
    (hNone : ∀ b ∈ snapshots,
      (b.drop base).findIdx? (sentinelLineMatch sentinel sentinelCmd) = none)
    (hT : '\n' ∉ timeoutStr) :
    run_command sentinel command sentinelCmd base snapshots
      = (joinNL ((snapshots.getLast?.getD []).drop base), false) ∧
    firstLine (renderRunCommandResult timeoutStr
        (run_command sentinel command sentinelCmd base snapshots))
      = "[TIMEOUT: Command did not complete within ".data ++ timeoutStr
          ++ "s]".data := by
  have h1 : run_command sentinel command sentinelCmd base snapshots
      = (joinNL ((snapshots.getLast?.getD []).drop base), false) := by
    unfold run_command
    rw [runCommandAux_timeout sentinel command sentinelCmd base snapshots []
      hNone]
    cases hlast : snapshots.getLast? with
    | none => simp [hlast]
    | some b => simp [hlast]
  refine ⟨h1, ?_⟩
  rw [h1]
  have hpNoNl : '\n' ∉ ("[TIMEOUT: Command did not complete within ".data
      ++ timeoutStr ++ "s]".data) := by
    intro hmem
    rcases List.mem_append.mp hmem with hmem1 | hmem2
    · rcases List.mem_append.mp hmem1 with hmem3 | hmem4
      · exact absurd hmem3 (by decide)
      · exact hT hmem4
    · exact absurd hmem2 (by decide)
  have hshape : ("[TIMEOUT: Command did not complete within ".data
        ++ timeoutStr ++ "s]\n".data)
        ++ joinNL ((snapshots.getLast?.getD []).drop base)
      = ("[TIMEOUT: Command did not complete within ".data ++ timeoutStr
          ++ "s]".data)
        ++ '\n' :: joinNL ((snapshots.getLast?.getD []).drop base) := by
    have hsplit : "s]\n".data = "s]".data ++ ['\n'] := rfl
    rw [hsplit]
    simp [List.append_assoc]
  calc firstLine (renderRunCommandResult timeoutStr
        (joinNL ((snapshots.getLast?.getD []).drop base), false))
      = firstLine (("[TIMEOUT: Command did not complete within ".data
          ++ timeoutStr ++ "s]\n".data)
          ++ joinNL ((snapshots.getLast?.getD []).drop base)) := rfl
    _ = firstLine (("[TIMEOUT: Command did not complete within ".data
          ++ timeoutStr ++ "s]".data)
          ++ '\n' :: joinNL ((snapshots.getLast?.getD []).drop base)) := by
        rw [hshape]
    _ = "[TIMEOUT: Command did not complete within ".data ++ timeoutStr
          ++ "s]".data := firstLine_append_newline _ _ hpNoNl

/-- Witness for C4: a command that never echoes the sentinel times out
after two polls; the partial output is the one new line, and the rendered
text starts with the timeout marker line. -/
theorem run_command_timeout_renders_marker_witness :
    run_command "__PTY_DONE_ab__".data "sleep 10".data
        "echo __PTY_DONE_ab__".data 0
        [["sleep 10".data], ["sleep 10".data, "partial".data]]
      = ("sleep 10\npartial".data, false) ∧
    firstLine (renderRunCommandResult "0.5".data
        (run_command "__PTY_DONE_ab__".data "sleep 10".data
          "echo __PTY_DONE_ab__".data 0
          [["sleep 10".data], ["sleep 10".data, "partial".data]]))
      = "[TIMEOUT: Command did not complete within 0.5s]".data := by
  have h := run_command_timeout_renders_marker "__PTY_DONE_ab__".data
    "sleep 10".data "echo __PTY_DONE_ab__".data 0
    [["sleep 10".data], ["sleep 10".data, "partial".data]] "0.5".data
    (by decide) (by decide)
  exact ⟨h.1.trans (by decide), h.2.trans (by decide)⟩

/- ================================================================== -/
/- Claim C9: run_command with the buffer already at capacity          -/
/- ================================================================== -/

/-- Appending to a full bounded deque evicts the oldest line and keeps
the length constant. -/
theorem dequeAppend_length (m : Nat) (q : List PyStr) (x : PyStr)
    (h : q.length = m) : (dequeAppend m q x).length = m := by
  unfold dequeAppend
  have hg : (q ++ [x]).length = m + 1 := by simp [h]
  rw [if_pos (by omega)]
  rw [List.length_drop]
  omega

/-- A whole batch of appends to a full bounded deque keeps the length
constant. -/
theorem applyAppends_length (m : Nat) :
    ∀ (xs : List PyStr) (q : List PyStr), q.length = m →
      (applyAppends m q xs).length = m := by
  intro xs
  induction xs with
  | nil => intro q h; exact h
  | cons x xs ih =>
    intro q h
    exact ih (dequeAppend m q x) (dequeAppend_length m q x h)

/-- C9 (confirmed): when the line buffer is already at capacity
(`len(buffer) == buffer_size = m`) at the moment `run_command` takes its
snapshot `base = len(buffer)`, every later poll computes
`new_lines = buffer[base:] = []` (appends to the saturated deque evict
the oldest line and keep the length at `m`), so no sentinel is ever
detected and the call returns `("", False)` at the deadline, whatever
lines — including the echoed sentinel — the reader appends. -/
theorem run_command_full_buffer (sentinel command sentinelCmd : PyStr)
    (m : Nat) (q : List PyStr) (h : q.length = m)
    (batches : List (List PyStr)) :
    run_command sentinel command sentinelCmd m (bufferStates m q batches)
      = (([] : PyStr), false) := by
  unfold run_command
  suffices haux : ∀ (bs : List (List PyStr)) (q' : List PyStr),
      q'.length = m →
      runCommandAux sentinel command sentinelCmd m []
          (bufferStates m q' bs) = (([] : PyStr), false) by
    exact haux batches q h
  intro bs
  induction bs with
  | nil => intro q' _; rfl
  | cons b rest ih =>
    intro q' hq'
    have hq1 : (applyAppends m q' b).length = m := applyAppends_length m b q' hq'
    have hdrop : (applyAppends m q' b).drop m = [] :=
      List.drop_eq_nil_of_le (le_of_eq hq1)
    simp only [bufferStates, runCommandAux, hdrop]
    exact ih (applyAppends m q' b) hq1

/-- Witness for C9: a two-line buffer of capacity 2; the reader appends
the command echo and the sentinel (evicting the two old lines), yet the
call still returns `("", False)`. -/
theorem run_command_full_buffer_witness :
    run_command "__PTY_DONE_ab__".data "echo hi".data
        "echo __PTY_DONE_ab__".data 2
        (bufferStates 2 ["old1".data, "old2".data]
          [["echo hi".data, "hi".data, "__PTY_DONE_ab__".data]])
      = (([] : PyStr), false) ∧
    bufferStates 2 ["old1".data, "old2".data]
        [["echo hi".data, "hi".data, "__PTY_DONE_ab__".data]]
      = [["hi".data, "__PTY_DONE_ab__".data]] := by
  refine ⟨?_, by decide⟩
  exact run_command_full_buffer "__PTY_DONE_ab__".data "echo hi".data
    "echo __PTY_DONE_ab__".data 2 ["old1".data, "old2".data] (by decide)
    [["echo hi".data, "hi".data, "__PTY_DONE_ab__".data]]

/- ================================================================== -/
/- Claim C6: overlapping run_command calls                            -/
/- ================================================================== -/

/-- C6 (code bug): nothing in `run_command` (or in the `PTYSession`
state, whose fields the embedding mirrors) guards against a second
in-flight call: there is no lock, no busy flag, and the identifier
`BusyError` appears nowhere in the source.  Concretely, while a first
call (`echo one`, snapshot base 0) is still waiting for its sentinel, a
second call (`echo two`, snapshot base 2) proceeds and returns a normal
`(output, True)` result instead of failing fast — and once both
sentinels have arrived, the first call completes with output polluted by
the second command's echo, output and sentinel lines. -/
theorem run_command_overlap_no_guard :
    run_command "__PTY_DONE_bb__".data "echo two".data
        "echo __PTY_DONE_bb__".data 2
        [["echo one".data, "one".data, "echo two".data, "two".data,
          "echo __PTY_DONE_bb__".data, "__PTY_DONE_bb__".data,
          "echo __PTY_DONE_aa__".data, "__PTY_DONE_aa__".data]]
      = ("two".data, true) ∧
    run_command "__PTY_DONE_aa__".data "echo one".data
        "echo __PTY_DONE_aa__".data 0
        [["echo one".data, "one".data, "echo two".data, "two".data,
          "echo __PTY_DONE_bb__".data, "__PTY_DONE_bb__".data,
          "echo __PTY_DONE_aa__".data, "__PTY_DONE_aa__".data]]
      = ("one\necho two\ntwo\necho __PTY_DONE_bb__\n__PTY_DONE_bb__".data,
          true) := by
  exact ⟨by decide, by decide⟩
